import Mathlib

/-!
Shallow embedding of the `aitickets` storefront (Next.js frontend) in Lean 4.

The definitions below are translated from the TypeScript sources:
  * `frontend/types/api.ts`        — the data model (interfaces become structures)
  * `frontend/stores/checkout-store.ts` — the zustand checkout store (state +
    actions become a state type and pure state-transition functions)
  * `frontend/lib/api.ts`          — the API client (`handleResponse`, URL and
    request construction for the individual operations)
  * `frontend/components/tickets/price-summary.tsx` and
    `frontend/components/checkout/order-summary.tsx` — the two component-local
    total computations.

JavaScript numbers in these code paths are used as integer cent amounts and
counts, so they are modelled as `Int`.  Nullable fields (`T | null`) and
optional fields (`t?:`) become `Option`.
-/

namespace AiTickets

/-- The `EventStatus` from `types/api.ts`. -/
inductive EventStatus where
  | SCHEDULED | PUBLISHED | CANCELLED
deriving DecidableEq, Repr

/-- The `TicketTierStatus` from `types/api.ts`. -/
inductive TicketTierStatus where
  | ACTIVE | SOLD_OUT
deriving DecidableEq, Repr

/-- The `DiscountType` from `types/api.ts`. -/
inductive DiscountType where
  | PERCENT | FIXED_CENTS
deriving DecidableEq, Repr

/-- The `Venue` from `types/api.ts`. -/
structure Venue where
  id : Int
  name : String
  address : String
  phone : Option String
  description : Option String
  logo_url : Option String
  created_at : String
deriving DecidableEq, Repr

/-- The `Category` from `types/api.ts`. -/
structure Category where
  id : Int
  name : String
  description : Option String
  color : Option String
  image_url : Option String
  created_at : String
deriving DecidableEq, Repr

/-- The `TicketTier` from `types/api.ts`; `price` is in cents. -/
structure TicketTier where
  id : Int
  event_id : Int
  name : String
  description : Option String
  price : Int
  quantity_available : Int
  quantity_sold : Int
  tickets_remaining : Int
  status : TicketTierStatus
  stripe_product_id : Option String
  stripe_price_id : Option String
deriving DecidableEq, Repr

/-- The `Event` from `types/api.ts`. -/
structure EventRec where
  id : Int
  name : String
  description : Option String
  event_date : String
  event_time : String
  image_url : Option String
  promo_video_url : Option String
  status : EventStatus
  is_visible : Bool
  doors_open_time : Option String
  created_at : String
deriving DecidableEq, Repr

/-- The `EventDetail` from `types/api.ts`: an `Event` together with its venue,
ticket tiers and categories. -/
structure EventDetail extends EventRec where
  venue : Venue
  ticket_tiers : List TicketTier
  categories : List Category
deriving DecidableEq, Repr

/-- The `PromoValidationResponse` from `types/api.ts`; cent fields are integers. -/
structure PromoValidationResponse where
  valid : Bool
  code : Option String
  discount_type : Option DiscountType
  discount_value : Option Int
  original_price_cents : Int
  discount_amount_cents : Int
  discounted_price_cents : Int
  message : String
deriving DecidableEq, Repr

/-- The `BuyerInfo` from `checkout-store.ts`. -/
structure BuyerInfo where
  name : String
  email : String
  phone : String
deriving DecidableEq, Repr

/-- The `Partial<BuyerInfo>`: every field optional, as passed to `setBuyerInfo`. -/
structure PartialBuyerInfo where
  name : Option String := none
  email : Option String := none
  phone : Option String := none
deriving DecidableEq, Repr

/-- The persisted data of the zustand checkout store (`CheckoutState` minus
its actions and computed getters, which become functions on this type). -/
structure CheckoutState where
  event : Option EventDetail
  selectedTier : Option TicketTier
  quantity : Int
  promoCode : Option String
  promoValidation : Option PromoValidationResponse
  buyerInfo : BuyerInfo
deriving DecidableEq, Repr

/-- The `initialBuyerInfo` from `checkout-store.ts`. -/
def initialBuyerInfo : BuyerInfo :=
  { name := "", email := "", phone := "" }

/-- The initial state of the store (the literal passed to `create` before any
action runs). -/
def initialCheckoutState : CheckoutState :=
  { event := none
    selectedTier := none
    quantity := 1
    promoCode := none
    promoValidation := none
    buyerInfo := initialBuyerInfo }

/-- The `setEvent` action. -/
def setEvent (e : EventDetail) (s : CheckoutState) : CheckoutState :=
  { s with event := some e }

/-- The `selectTier` action: stores the tier and resets quantity and promo data. -/
def selectTier (tier : Option TicketTier) (s : CheckoutState) : CheckoutState :=
  { s with selectedTier := tier, quantity := 1,
           promoCode := none, promoValidation := none }

/-- The `setQuantity` action: no-op without a selected tier, otherwise clamps the
requested quantity via `max(1, min(quantity, min(tickets_remaining, 10)))`. -/
def setQuantity (quantity : Int) (s : CheckoutState) : CheckoutState :=
  match s.selectedTier with
  | none => s
  | some tier =>
      let maxQuantity := min tier.tickets_remaining 10
      let clampedQuantity := max 1 (min quantity maxQuantity)
      { s with quantity := clampedQuantity }

/-- The `incrementQuantity` action: adds one while strictly below
`min(tickets_remaining, 10)`; no-op without a selected tier. -/
def incrementQuantity (s : CheckoutState) : CheckoutState :=
  match s.selectedTier with
  | none => s
  | some tier =>
      let maxQuantity := min tier.tickets_remaining 10
      if s.quantity < maxQuantity then { s with quantity := s.quantity + 1 } else s

/-- The `decrementQuantity` action: subtracts one while strictly above 1. -/
def decrementQuantity (s : CheckoutState) : CheckoutState :=
  if s.quantity > 1 then { s with quantity := s.quantity - 1 } else s

/-- The `setPromoCode` action. -/
def setPromoCode (code : Option String) (s : CheckoutState) : CheckoutState :=
  { s with promoCode := code }

/-- The `setPromoValidation` action. -/
def setPromoValidation (validation : Option PromoValidationResponse)
    (s : CheckoutState) : CheckoutState :=
  { s with promoValidation := validation }

/-- The spread `{ ...state.buyerInfo, ...info }` used by `setBuyerInfo`. -/
def mergeBuyerInfo (base : BuyerInfo) (info : PartialBuyerInfo) : BuyerInfo :=
  { name := info.name.getD base.name
    email := info.email.getD base.email
    phone := info.phone.getD base.phone }

/-- The `setBuyerInfo` action. -/
def setBuyerInfo (info : PartialBuyerInfo) (s : CheckoutState) : CheckoutState :=
  { s with buyerInfo := mergeBuyerInfo s.buyerInfo info }

/-- The `clearCheckout` action: resets every field to its initial value. -/
def clearCheckout (_ : CheckoutState) : CheckoutState :=
  { event := none
    selectedTier := none
    quantity := 1
    promoCode := none
    promoValidation := none
    buyerInfo := initialBuyerInfo }

/-- The `getSubtotal` computed getter: `selectedTier.price * quantity`,
0 when no tier is selected. -/
def getSubtotal (s : CheckoutState) : Int :=
  match s.selectedTier with
  | none => 0
  | some tier => tier.price * s.quantity

/-- The `getDiscount` computed getter: `discount_amount_cents * quantity` when the
stored promo validation exists and is valid, 0 otherwise
(`if (!promoValidation?.valid) return 0`). -/
def getDiscount (s : CheckoutState) : Int :=
  match s.promoValidation with
  | none => 0
  | some v => if v.valid then v.discount_amount_cents * s.quantity else 0

/-- The `STRIPE_MINIMUM_CENTS` from `checkout-store.ts` and
`price-summary.tsx`. -/
def STRIPE_MINIMUM_CENTS : Int := 50

/-- The `getTotal` computed getter: clamps the discounted subtotal at 0, then maps
any positive amount below the Stripe minimum (50 cents) to 0. -/
def getTotal (s : CheckoutState) : Int :=
  let subtotal := getSubtotal s
  let discount := getDiscount s
  let rawTotal := max 0 (subtotal - discount)
  if rawTotal > 0 ∧ rawTotal < STRIPE_MINIMUM_CENTS then 0 else rawTotal

/-- The total as described by the specification sentence for C1, written
directly from its words: subtotal is `selectedTier.price * quantity` (0 when
`selectedTier` is null); discount is `discount_amount_cents * quantity` when
the promo validation is non-null and valid (0 otherwise);
`raw = max(0, subtotal - discount)`; the result is 0 when `0 < raw < 50` and
`raw` otherwise. -/
def specTotalC1 (s : CheckoutState) : Int :=
  let subtotal : Int :=
    match s.selectedTier with
    | none => 0
    | some tier => tier.price * s.quantity
  let discount : Int :=
    match s.promoValidation with
    | some v => if v.valid then v.discount_amount_cents * s.quantity else 0
    | none => 0
  let raw := max 0 (subtotal - discount)
  if 0 < raw ∧ raw < 50 then 0 else raw

/-- Total as computed inside the `PriceSummary` component
(`price-summary.tsx`): it receives the unit price, quantity and discount (all
in cents) as props, computes `subtotal = unitPrice * quantity`,
`rawTotal = max(0, subtotal - discount)`, and makes positive totals below the
Stripe minimum free. -/
def priceSummaryTotal (unitPrice quantity discount : Int) : Int :=
  let subtotal := unitPrice * quantity
  let rawTotal := max 0 (subtotal - discount)
  if rawTotal > 0 ∧ rawTotal < STRIPE_MINIMUM_CENTS then 0 else rawTotal

/-- Total as computed inside the `OrderSummary` component
(`order-summary.tsx`): `subtotal = tier.price * quantity`, discount from the
promo validation when valid, total `max(0, subtotal - discount)` — with no
Stripe-minimum adjustment. -/
def orderSummaryTotal (tier : TicketTier) (quantity : Int)
    (promoValidation : Option PromoValidationResponse) : Int :=
  let subtotal := tier.price * quantity
  let discount :=
    match promoValidation with
    | some v => if v.valid then v.discount_amount_cents * quantity else 0
    | none => 0
  max 0 (subtotal - discount)

/-- The actions of the checkout store, as an inductive alphabet so that
preservation of an invariant by every store operation is a single statement. -/
inductive CheckoutAction where
  | setEvent (e : EventDetail)
  | selectTier (t : Option TicketTier)
  | setQuantity (q : Int)
  | incrementQuantity
  | decrementQuantity
  | setPromoCode (c : Option String)
  | setPromoValidation (v : Option PromoValidationResponse)
  | setBuyerInfo (i : PartialBuyerInfo)
  | clearCheckout

/-- Dispatch of a checkout action to the corresponding store operation. -/
def checkoutStep : CheckoutAction → CheckoutState → CheckoutState
  | .setEvent e => setEvent e
  | .selectTier t => selectTier t
  | .setQuantity q => setQuantity q
  | .incrementQuantity => incrementQuantity
  | .decrementQuantity => decrementQuantity
  | .setPromoCode c => setPromoCode c
  | .setPromoValidation v => setPromoValidation v
  | .setBuyerInfo i => setBuyerInfo i
  | .clearCheckout => clearCheckout

/-- The quantity invariant of claim C3: `quantity ≥ 1`, and when a tier is
selected, `quantity ≤ max(1, min(tickets_remaining, 10))`. -/
def QuantityInv (s : CheckoutState) : Prop :=
  1 ≤ s.quantity ∧
    ∀ t, s.selectedTier = some t →
      s.quantity ≤ max 1 (min t.tickets_remaining 10)

/-- A concrete 30-cent ticket tier, used to evaluate the totals at an
explicit input. -/
def tier30 : TicketTier :=
  { id := 1, event_id := 1, name := "GA", description := none, price := 30,
    quantity_available := 100, quantity_sold := 0, tickets_remaining := 100,
    status := .ACTIVE, stripe_product_id := none, stripe_price_id := none }

/-- A concrete checkout state: one 30-cent ticket selected, no promo. -/
def cs30 : CheckoutState :=
  { event := none, selectedTier := some tier30, quantity := 1,
    promoCode := none, promoValidation := none, buyerInfo := initialBuyerInfo }

/-- A minimal model of JavaScript JSON values, as observed by the API
client: `response.json()` results and error bodies. -/
inductive Json where
  | null
  | bool (b : Bool)
  | num (n : Int)
  | str (s : String)
  | arr (elems : List Json)
  | obj (fields : List (String × Json))

/-- JavaScript property access `value.key` on a parsed JSON value: on
`null` it throws a TypeError (the `.error` case); on an object it yields the
field, `none` modelling `undefined` when the property is missing; on other
primitives and arrays it yields `undefined` (`detail` and `message` are not
built-in properties of strings, numbers, booleans or arrays). -/
def Json.getFieldE : Json → String → Except Unit (Option Json)
  | .null, _ => .error ()
  | .obj fields, key => .ok (fields.lookup key)
  | _, _ => .ok none

/-- Field read of a JSON value as the claim describes it, with no throwing:
the field of an object, `none` when absent or when the value has no fields. -/
def Json.fieldLookup : Json → String → Option Json
  | .obj fields, key => fields.lookup key
  | _, _ => none

/-- JavaScript truthiness of a JSON value: `null`, `false`, `0` and `""` are
falsy; arrays and objects are truthy. -/
def Json.truthy : Json → Bool
  | .null => false
  | .bool b => b
  | .num n => n != 0
  | .str s => s != ""
  | .arr _ => true
  | .obj _ => true

/-- JavaScript `a || b` where evaluating `a` is a property access that may
throw: a thrown error propagates, a present-and-truthy value short-circuits,
and otherwise the chain continues with `b`. -/
def jsOrE (a : Except Unit (Option Json)) (b : Except Unit Json) :
    Except Unit Json :=
  match a with
  | .error e => .error e
  | .ok (some v) => if v.truthy then .ok v else b
  | .ok none => b

/-- A `fetch` `Response` as observed by `handleResponse`: the `ok` flag, the
HTTP status code, and the result of `response.json()` (`none` when the body
is not parseable as JSON, in which case `response.json()` rejects). -/
structure FetchResponse where
  ok : Bool
  status : Nat
  body : Option Json

/-- The `ApiError` from `api.ts`: carries the HTTP status and the value passed
as the error message. -/
structure ApiError where
  status : Nat
  message : Json

/-- The failure channel of `handleResponse`: a thrown `ApiError`; a
TypeError thrown by property access when the parsed error body is `null`;
or the rejection of `response.json()` on an ok response whose body is not
valid JSON. -/
inductive FetchFailure where
  | api (e : ApiError)
  | typeError
  | jsonRejection

/-- The `handleResponse` from `api.ts`: on a non-ok response it parses the error
body (substituting the object with a `detail` of "An error occurred" when
parsing fails) and throws `ApiError(response.status,
error.detail || error.message || "An error occurred")`; the `.catch` only
handles parse rejections, so when the error body parses to `null` the
property access `error.detail` throws a TypeError that propagates instead of
an `ApiError`; on an ok response it returns `response.json()`. -/
def handleResponse (response : FetchResponse) : Except FetchFailure Json :=
  if !response.ok then
    let error : Json :=
      match response.body with
      | some j => j
      | none => .obj [("detail", .str "An error occurred")]
    match jsOrE (error.getFieldE "detail")
        (jsOrE (error.getFieldE "message")
          (Except.ok (Json.str "An error occurred"))) with
    | .error _ => .error .typeError
    | .ok msg => .error (.api { status := response.status, message := msg })
  else
    match response.body with
    | some j => .ok j
    | none => .error .jsonRejection

/-- The `events.list` response handling: the operation returns
`handleResponse(response)` on the response it fetched. -/
def eventsList_handle : FetchResponse → Except FetchFailure Json := handleResponse

/-- The `events.get` response handling. -/
def eventsGet_handle : FetchResponse → Except FetchFailure Json := handleResponse

/-- The `events.getTiers` response handling. -/
def eventsGetTiers_handle : FetchResponse → Except FetchFailure Json := handleResponse

/-- The `categories.list` response handling. -/
def categoriesList_handle : FetchResponse → Except FetchFailure Json := handleResponse

/-- The `tickets.purchase` response handling. -/
def ticketsPurchase_handle : FetchResponse → Except FetchFailure Json := handleResponse

/-- The `tickets.get` response handling. -/
def ticketsGet_handle : FetchResponse → Except FetchFailure Json := handleResponse

/-- The `tickets.byEmail` response handling. -/
def ticketsByEmail_handle : FetchResponse → Except FetchFailure Json := handleResponse

/-- The `promo.validate` response handling. -/
def promoValidate_handle : FetchResponse → Except FetchFailure Json := handleResponse

/-- The `admin.getData` response handling. -/
def adminGetData_handle : FetchResponse → Except FetchFailure Json := handleResponse

/-- The `admin.updateEvent` response handling. -/
def adminUpdateEvent_handle : FetchResponse → Except FetchFailure Json := handleResponse

/-- The `admin.uploadImage` response handling. -/
def adminUploadImage_handle : FetchResponse → Except FetchFailure Json := handleResponse

/-- The storefront API operations that route their response through
`handleResponse` (the list of claim C2). -/
def storefrontOps : List (FetchResponse → Except FetchFailure Json) :=
  [eventsList_handle, eventsGet_handle, eventsGetTiers_handle,
   categoriesList_handle, ticketsPurchase_handle, ticketsGet_handle,
   ticketsByEmail_handle, promoValidate_handle, adminGetData_handle,
   adminUpdateEvent_handle, adminUploadImage_handle]

/-- The first of the listed fields of `j` that is present and truthy, else
the default — the message cascade claim C2 describes. -/
def firstTruthyField (j : Json) (keys : List String) (default : Json) : Json :=
  match keys with
  | [] => default
  | k :: rest =>
      match j.fieldLookup k with
      | some v => if v.truthy then v else firstTruthyField j rest default
      | none => firstTruthyField j rest default

/-- The error message claim C2 prescribes for a non-ok response: the `detail`
field of the error body, else its `message` field, else "An error occurred";
the plain default when the body is not parseable as JSON. -/
def specErrorMessage (body : Option Json) : Json :=
  match body with
  | none => .str "An error occurred"
  | some j => firstTruthyField j ["detail", "message"] (.str "An error occurred")

/-- A lowercase hexadecimal digit, for `\uXXXX` JSON escapes. -/
def hexDigitLower (n : Nat) : Char :=
  if n < 10 then Char.ofNat (48 + n) else Char.ofNat (87 + n)

/-- An uppercase hexadecimal digit, for percent-encoding. -/
def hexDigitUpper (n : Nat) : Char :=
  if n < 10 then Char.ofNat (48 + n) else Char.ofNat (55 + n)

/-- Four lowercase hex digits of a code point below 0x10000. -/
def hex4 (n : Nat) : String :=
  String.mk [hexDigitLower ((n / 4096) % 16), hexDigitLower ((n / 256) % 16),
             hexDigitLower ((n / 16) % 16), hexDigitLower (n % 16)]

/-- Two uppercase hex digits of a byte. -/
def hex2Upper (n : Nat) : String :=
  String.mk [hexDigitUpper ((n / 16) % 16), hexDigitUpper (n % 16)]

/-- The `JSON.stringify` escaping of one character inside a string literal:
quote, backslash, and control characters are escaped. -/
def jsonEscapeChar (c : Char) : String :=
  if c = '"' then "\\\""
  else if c = '\\' then "\\\\"
  else if c = '\n' then "\\n"
  else if c = '\r' then "\\r"
  else if c = '\t' then "\\t"
  else if c = '\x08' then "\\b"
  else if c = '\x0c' then "\\f"
  else if c.toNat < 32 then "\\u" ++ hex4 c.toNat
  else String.singleton c

/-- The `JSON.stringify` escaping of a whole string (without the quotes). -/
def jsonEscape (s : String) : String :=
  String.join (s.toList.map jsonEscapeChar)

mutual

/-- The `JSON.stringify` on model JSON values. -/
def Json.render : Json → String
  | .null => "null"
  | .bool b => if b then "true" else "false"
  | .num n => toString n
  | .str s => "\"" ++ jsonEscape s ++ "\""
  | .arr elems => "[" ++ Json.renderElems elems ++ "]"
  | .obj fields => "\x7b" ++ Json.renderFields fields ++ "\x7d"

/-- Comma-separated rendering of JSON array elements. -/
def Json.renderElems : List Json → String
  | [] => ""
  | [j] => Json.render j
  | j :: rest => Json.render j ++ "," ++ Json.renderElems rest

/-- Comma-separated rendering of JSON object fields. -/
def Json.renderFields : List (String × Json) → String
  | [] => ""
  | [(k, v)] => "\"" ++ jsonEscape k ++ "\":" ++ Json.render v
  | (k, v) :: rest =>
      "\"" ++ jsonEscape k ++ "\":" ++ Json.render v ++ "," ++
        Json.renderFields rest

end

/-- The `API_BASE` from `api.ts`:
`process.env.NEXT_PUBLIC_API_URL || "http://localhost:8000"`, where an unset
or empty environment variable falls back to the default. -/
def apiBase (envApiUrl : Option String) : String :=
  match envApiUrl with
  | some u => if u != "" then u else "http://localhost:8000"
  | none => "http://localhost:8000"

/-- A `fetch` request as the API client constructs it: URL, method, headers,
and optional string body (a bare `fetch(url)` is a GET with no body). -/
structure FetchRequest where
  url : String
  method : String
  headers : List (String × String)
  body : Option String
deriving DecidableEq, Repr

/-- The `PurchaseRequest` from `types/api.ts`. -/
structure PurchaseRequest where
  ticket_tier_id : Int
  email : String
  name : String
  phone : Option String := none
  quantity : Option Int := none
  promo_code : Option String := none
  utm_source : Option String := none
  utm_medium : Option String := none
  utm_campaign : Option String := none
deriving DecidableEq, Repr

/-- The JSON object `JSON.stringify` sees for a purchase request: required
fields first, optional fields (in interface order) only when present, since
`JSON.stringify` drops `undefined` properties. -/
def PurchaseRequest.toJson (d : PurchaseRequest) : Json :=
  .obj
    ([("ticket_tier_id", Json.num d.ticket_tier_id),
      ("email", Json.str d.email),
      ("name", Json.str d.name)] ++
     (match d.phone with | some p => [("phone", Json.str p)] | none => []) ++
     (match d.quantity with | some q => [("quantity", Json.num q)] | none => []) ++
     (match d.promo_code with | some c => [("promo_code", Json.str c)] | none => []) ++
     (match d.utm_source with | some u => [("utm_source", Json.str u)] | none => []) ++
     (match d.utm_medium with | some u => [("utm_medium", Json.str u)] | none => []) ++
     (match d.utm_campaign with | some u => [("utm_campaign", Json.str u)] | none => []))

/-- The request `tickets.purchase` hands to `fetch`: POST to
`${API_BASE}/api/tickets/events/${eventId}/purchase` with a JSON content
type and the stringified purchase request as body. -/
def ticketsPurchaseRequest (envApiUrl : Option String) (eventId : Int)
    (data : PurchaseRequest) : FetchRequest :=
  { url := apiBase envApiUrl ++ "/api/tickets/events/" ++ toString eventId ++
      "/purchase"
    method := "POST"
    headers := [("Content-Type", "application/json")]
    body := some (Json.render data.toJson) }

/-- The `EventListParams` from `types/api.ts`. -/
structure EventListParams where
  category : Option String := none
  limit : Option Int := none
  offset : Option Int := none
deriving DecidableEq, Repr

/-- UTF-8 bytes of a character, for URL encoding. -/
def utf8Bytes (c : Char) : List Nat :=
  let n := c.toNat
  if n < 128 then [n]
  else if n < 2048 then [192 + n / 64, 128 + n % 64]
  else if n < 65536 then [224 + n / 4096, 128 + (n / 64) % 64, 128 + n % 64]
  else [240 + n / 262144, 128 + (n / 4096) % 64, 128 + (n / 64) % 64,
        128 + n % 64]

/-- Bytes `URLSearchParams` serializes verbatim: ASCII alphanumerics and
`*`, `-`, `.`, `_`. -/
def isFormSafeByte (b : Nat) : Bool :=
  (48 ≤ b && b ≤ 57) || (65 ≤ b && b ≤ 90) || (97 ≤ b && b ≤ 122) ||
    b == 42 || b == 45 || b == 46 || b == 95

/-- The `application/x-www-form-urlencoded` serialization of one byte: safe
bytes verbatim, space as `+`, everything else percent-encoded. -/
def formEncodeByte (b : Nat) : String :=
  if isFormSafeByte b then String.singleton (Char.ofNat b)
  else if b == 32 then "+"
  else "%" ++ hex2Upper b

/-- The `application/x-www-form-urlencoded` serialization of a string, as
`URLSearchParams.toString()` performs it on keys and values. -/
def formEncode (s : String) : String :=
  String.join (s.toList.map (fun c => String.join ((utf8Bytes c).map formEncodeByte)))

/-- The key/value pairs `events.list` adds to its `URLSearchParams`, in
insertion order `category`, `limit`, `offset`; each is added only when the
parameter object is present and the field is provided and truthy
(JavaScript `if (params?.field)`), with numbers stringified. -/
def eventsListQueryPairs (params : Option EventListParams) :
    List (String × String) :=
  match params with
  | none => []
  | some p =>
      (match p.category with
       | some c => if c != "" then [("category", c)] else []
       | none => []) ++
      (match p.limit with
       | some n => if n != 0 then [("limit", toString n)] else []
       | none => []) ++
      (match p.offset with
       | some n => if n != 0 then [("offset", toString n)] else []
       | none => [])

/-- The `URLSearchParams.toString()`: ampersand-joined `key=value` pairs, both
sides form-encoded. -/
def searchParamsToString (pairs : List (String × String)) : String :=
  String.intercalate "&" (pairs.map (fun kv => formEncode kv.1 ++ "=" ++ formEncode kv.2))

/-- The URL `events.list` fetches: `${API_BASE}/api/events`, with
`?${queryString}` appended only when the query string is non-empty. -/
def eventsListUrl (envApiUrl : Option String)
    (params : Option EventListParams) : String :=
  let queryString := searchParamsToString (eventsListQueryPairs params)
  apiBase envApiUrl ++ "/api/events" ++
    (if queryString != "" then "?" ++ queryString else "")

/-- Modelled from the spec: the MCP server (`mcp_server/` in the repository,
whose Python sources are not among the frontend files here) exposes the
ticketing operations of the platform as tools a voice agent can invoke; the spec
puts the count at about 125 operations, selecting among 100+ tools. -/
def mcpToolCount : Nat := 125

/-- A concrete purchase request used to evaluate the client at an input. -/
def samplePurchase : PurchaseRequest :=
  { ticket_tier_id := 1, email := "a@example.com", name := "Ada" }

/-- A concrete ok response with a parseable JSON body. -/
def okResp : FetchResponse :=
  { ok := true, status := 200, body := some (Json.str "ok") }

/-- A concrete non-ok response whose body is the valid JSON text `null`. -/
def nullBodyErrResp : FetchResponse :=
  { ok := false, status := 500, body := some Json.null }

/-- The `getTotal` getter written in the shape its definition unfolds to. -/
theorem getTotal_eq_ite (s : CheckoutState) :
    getTotal s =
      if max 0 (getSubtotal s - getDiscount s) > 0 ∧
          max 0 (getSubtotal s - getDiscount s) < 50 then 0
      else max 0 (getSubtotal s - getDiscount s) := rfl

/-- C1: `getTotal()` equals the function of the state that the spec gives — subtotal
`selectedTier.price * quantity` (0 without a tier), discount
`discount_amount_cents * quantity` for a valid promo validation (0 otherwise),
`raw = max(0, subtotal - discount)`, result 0 when `0 < raw < 50` and `raw`
otherwise; in particular it is never negative and never strictly between
0 and 50 cents. -/
theorem getTotal_matches_spec_C1 :
    ∀ s : CheckoutState,
      getTotal s = specTotalC1 s ∧ 0 ≤ getTotal s ∧
        ¬(0 < getTotal s ∧ getTotal s < 50) := by
  intro s
  have h : getTotal s = specTotalC1 s := by
    unfold getTotal specTotalC1 getSubtotal getDiscount STRIPE_MINIMUM_CENTS
    cases s.selectedTier <;> cases s.promoValidation <;> rfl
  refine ⟨h, ?_, ?_⟩ <;> rw [getTotal_eq_ite] <;> split <;> omega

/-- The `setQuantity` action is the identity when no tier is selected. -/
theorem setQuantity_none (q : Int) (s : CheckoutState)
    (h : s.selectedTier = none) : setQuantity q s = s := by
  unfold setQuantity; rw [h]

/-- The `setQuantity` action with a selected tier stores the clamped quantity. -/
theorem setQuantity_some (q : Int) (s : CheckoutState) (tier : TicketTier)
    (h : s.selectedTier = some tier) :
    setQuantity q s =
      { s with quantity := max 1 (min q (min tier.tickets_remaining 10)) } := by
  unfold setQuantity; rw [h]

/-- The `incrementQuantity` action is the identity when no tier is selected. -/
theorem incrementQuantity_none (s : CheckoutState)
    (h : s.selectedTier = none) : incrementQuantity s = s := by
  unfold incrementQuantity; rw [h]

/-- The `incrementQuantity` action with a selected tier adds one below the cap. -/
theorem incrementQuantity_some (s : CheckoutState) (tier : TicketTier)
    (h : s.selectedTier = some tier) :
    incrementQuantity s =
      if s.quantity < min tier.tickets_remaining 10 then
        { s with quantity := s.quantity + 1 }
      else s := by
  unfold incrementQuantity; rw [h]

/-- C3: from the initial state, every store operation preserves the quantity
invariant (`quantity ≥ 1`, and `quantity ≤ max(1, min(tickets_remaining, 10))`
whenever a tier is selected); `setQuantity` clamps the requested quantity,
`setQuantity` and `incrementQuantity` are no-ops without a selected tier,
`decrementQuantity` never goes below 1, and `selectTier` and `clearCheckout`
reset the quantity to 1. -/
theorem checkout_quantity_invariant_C3 :
    QuantityInv initialCheckoutState ∧
    (∀ (a : CheckoutAction) (s : CheckoutState),
        QuantityInv s → QuantityInv (checkoutStep a s)) ∧
    (∀ (s : CheckoutState) (q : Int) (tier : TicketTier),
        s.selectedTier = some tier →
        (setQuantity q s).quantity =
          max 1 (min q (min tier.tickets_remaining 10))) ∧
    (∀ (s : CheckoutState) (q : Int), s.selectedTier = none →
        setQuantity q s = s ∧ incrementQuantity s = s) ∧
    (∀ s : CheckoutState, 1 ≤ s.quantity →
        1 ≤ (decrementQuantity s).quantity) ∧
    (∀ (t : Option TicketTier) (s : CheckoutState),
        (selectTier t s).quantity = 1 ∧ (clearCheckout s).quantity = 1) := by
  refine ⟨?_, ?_, ?_, ?_, ?_, ?_⟩
  · exact ⟨le_refl 1, fun t ht => by simp [initialCheckoutState] at ht⟩
  · intro a s hs
    obtain ⟨h1, h2⟩ := hs
    cases a with
    | setEvent e => exact ⟨h1, fun t ht => h2 t ht⟩
    | selectTier t => exact ⟨le_refl 1, fun tier _ => le_max_left _ _⟩
    | setQuantity q =>
        show QuantityInv (setQuantity q s)
        rcases hsel : s.selectedTier with _ | tier
        · rw [setQuantity_none q s hsel]; exact ⟨h1, h2⟩
        · rw [setQuantity_some q s tier hsel]
          refine ⟨le_max_left _ _, ?_⟩
          intro t ht
          have ht2 : s.selectedTier = some t := ht
          rw [hsel] at ht2
          injection ht2 with h3
          subst h3
          show max 1 (min q (min tier.tickets_remaining 10)) ≤
            max 1 (min tier.tickets_remaining 10)
          omega
    | incrementQuantity =>
        show QuantityInv (incrementQuantity s)
        rcases hsel : s.selectedTier with _ | tier
        · rw [incrementQuantity_none s hsel]; exact ⟨h1, h2⟩
        · rw [incrementQuantity_some s tier hsel]
          split
          · rename_i hlt
            refine ⟨?_, ?_⟩
            · show 1 ≤ s.quantity + 1; omega
            · intro t ht
              have ht2 : s.selectedTier = some t := ht
              rw [hsel] at ht2
              injection ht2 with h3
              subst h3
              show s.quantity + 1 ≤ max 1 (min tier.tickets_remaining 10)
              omega
          · exact ⟨h1, h2⟩
    | decrementQuantity =>
        show QuantityInv (decrementQuantity s)
        unfold decrementQuantity
        split
        · rename_i hgt
          refine ⟨?_, ?_⟩
          · show 1 ≤ s.quantity - 1; omega
          · intro t ht
            have ht2 : s.selectedTier = some t := ht
            have hb := h2 t ht2
            show s.quantity - 1 ≤ max 1 (min t.tickets_remaining 10)
            omega
        · exact ⟨h1, h2⟩
    | setPromoCode c => exact ⟨h1, fun t ht => h2 t ht⟩
    | setPromoValidation v => exact ⟨h1, fun t ht => h2 t ht⟩
    | setBuyerInfo i => exact ⟨h1, fun t ht => h2 t ht⟩
    | clearCheckout =>
        exact ⟨le_refl 1, fun t ht => by simp [checkoutStep, clearCheckout] at ht⟩
  · intro s q tier h
    rw [setQuantity_some q s tier h]
  · intro s q h
    exact ⟨setQuantity_none q s h, incrementQuantity_none s h⟩
  · intro s h
    unfold decrementQuantity
    split
    · show 1 ≤ s.quantity - 1; omega
    · exact h
  · intro t s
    exact ⟨rfl, rfl⟩

/-- Witness for C3: the preservation part applied at a concrete action and
state, with the invariant hypothesis discharged by evaluation. -/
theorem checkout_quantity_invariant_C3_witness :
    QuantityInv (checkoutStep (CheckoutAction.setQuantity 5) cs30) := by
  have hinv : QuantityInv cs30 := by
    refine ⟨by norm_num [cs30], fun t ht => ?_⟩
    simp only [cs30, Option.some.injEq] at ht
    subst ht
    norm_num [cs30, tier30]
  exact checkout_quantity_invariant_C3.2.1 (CheckoutAction.setQuantity 5) cs30 hinv

/-- C4 counterexample: with a selected 30-cent tier, quantity 1 and no promo,
the checkout store `getTotal` and the `PriceSummary` total are 0 (Stripe
minimum makes the order free), but the `OrderSummary` total is 30 cents, so
the three total computations do not all agree. -/
theorem storefront_totals_C4_counterexample :
    getTotal cs30 = 0 ∧ priceSummaryTotal tier30.price 1 0 = 0 ∧
    orderSummaryTotal tier30 1 none = 30 ∧
    orderSummaryTotal tier30 1 none ≠ getTotal cs30 := by
  refine ⟨by decide, by decide, by decide, by decide⟩

/-- C4 (amended): for a state with a selected tier, `getTotal` and the
`PriceSummary` total (fed the discount of the store) agree for every input, the
`OrderSummary` total is `max(0, subtotal - discount)` with no Stripe-minimum
adjustment, and `OrderSummary` agrees with the other two exactly when the raw
total is 0 or at least 50 cents. -/
theorem storefront_totals_agree_C4 :
    ∀ (s : CheckoutState) (tier : TicketTier), s.selectedTier = some tier →
      getTotal s = priceSummaryTotal tier.price s.quantity (getDiscount s) ∧
      orderSummaryTotal tier s.quantity s.promoValidation =
        max 0 (getSubtotal s - getDiscount s) ∧
      (orderSummaryTotal tier s.quantity s.promoValidation = getTotal s ↔
        max 0 (getSubtotal s - getDiscount s) = 0 ∨
          50 ≤ max 0 (getSubtotal s - getDiscount s)) := by
  intro s tier h
  have hsub : getSubtotal s = tier.price * s.quantity := by
    unfold getSubtotal; rw [h]
  have horder : orderSummaryTotal tier s.quantity s.promoValidation =
      max 0 (getSubtotal s - getDiscount s) := by
    rw [hsub]
    unfold orderSummaryTotal getDiscount
    cases s.promoValidation <;> rfl
  have hprice : getTotal s =
      priceSummaryTotal tier.price s.quantity (getDiscount s) := by
    rw [getTotal_eq_ite, hsub]
    rfl
  have key : ∀ m : Int, 0 ≤ m →
      ((m = if m > 0 ∧ m < 50 then 0 else m) ↔ (m = 0 ∨ 50 ≤ m)) := by
    intro m hm; split <;> omega
  refine ⟨hprice, horder, ?_⟩
  rw [horder, getTotal_eq_ite]
  exact key _ (le_max_left 0 _)

/-- Witness for C4 (amended): the `OrderSummary` conjunct applied at the
concrete 30-cent state, the selected-tier hypothesis discharged by `rfl`. -/
theorem storefront_totals_agree_C4_witness :
    orderSummaryTotal tier30 cs30.quantity cs30.promoValidation =
      max 0 (getSubtotal cs30 - getDiscount cs30) :=
  (storefront_totals_agree_C4 cs30 tier30 rfl).2.1

/-- Away from `null`, property access does not throw and agrees with the
claim-side field read. -/
theorem getFieldE_ok (j : Json) (k : String) (hj : j ≠ Json.null) :
    j.getFieldE k = Except.ok (j.fieldLookup k) := by
  cases j with
  | null => exact absurd rfl hj
  | bool b => rfl
  | num n => rfl
  | str s => rfl
  | arr elems => rfl
  | obj fields => rfl

/-- Unfolding `firstTruthyField` one key at a time. -/
theorem firstTruthyField_cons (j d : Json) (k : String) (rest : List String) :
    firstTruthyField j (k :: rest) d =
      match j.fieldLookup k with
      | some v => if v.truthy then v else firstTruthyField j rest d
      | none => firstTruthyField j rest d := by
  cases hk : j.fieldLookup k with
  | none => simp [firstTruthyField, hk]
  | some v => simp [firstTruthyField, hk]

/-- On a non-`null` error body, the throwing `||` cascade succeeds and
produces exactly the message claim C2 prescribes. -/
theorem cascadeE_eq_spec (j : Json) (hj : j ≠ Json.null) :
    jsOrE (j.getFieldE "detail")
        (jsOrE (j.getFieldE "message")
          (Except.ok (Json.str "An error occurred"))) =
      Except.ok (specErrorMessage (some j)) := by
  rw [getFieldE_ok j "detail" hj, getFieldE_ok j "message" hj]
  show _ = Except.ok (firstTruthyField j ["detail", "message"]
    (Json.str "An error occurred"))
  rw [firstTruthyField_cons, firstTruthyField_cons]
  rcases hd : j.fieldLookup "detail" with _ | v
  · rcases hm : j.fieldLookup "message" with _ | w
    · simp [jsOrE, firstTruthyField]
    · by_cases hw : w.truthy <;> simp [jsOrE, firstTruthyField, hw]
  · by_cases hv : v.truthy
    · simp [jsOrE, hv]
    · rcases hm : j.fieldLookup "message" with _ | w
      · simp [jsOrE, firstTruthyField, hv]
      · by_cases hw : w.truthy <;> simp [jsOrE, firstTruthyField, hv, hw]

/-- On a non-ok response whose body is not JSON `null`, `handleResponse`
throws an `ApiError` with the response status and the cascade message. -/
theorem handleResponse_not_ok (r : FetchResponse) (h : r.ok = false)
    (hnn : r.body ≠ some Json.null) :
    handleResponse r =
      Except.error (.api ⟨r.status, specErrorMessage r.body⟩) := by
  cases r with
  | mk ok status body =>
      have h2 : ok = false := h
      subst h2
      cases body with
      | none => rfl
      | some j =>
          have hj : j ≠ Json.null := by
            intro hjn
            exact hnn (by rw [hjn])
          have hc := cascadeE_eq_spec j hj
          calc handleResponse { ok := false, status := status, body := some j }
              = (match jsOrE (j.getFieldE "detail")
                    (jsOrE (j.getFieldE "message")
                      (Except.ok (Json.str "An error occurred"))) with
                 | .error _ => Except.error FetchFailure.typeError
                 | .ok msg => Except.error (FetchFailure.api
                     { status := status, message := msg })) := rfl
            _ = Except.error (FetchFailure.api
                  { status := status,
                    message := specErrorMessage (some j) }) := by rw [hc]

/-- On a non-ok response whose body is JSON `null`, the property access
`error.detail` throws, so `handleResponse` fails with a TypeError. -/
theorem handleResponse_not_ok_null (r : FetchResponse) (h : r.ok = false)
    (hb : r.body = some Json.null) :
    handleResponse r = Except.error FetchFailure.typeError := by
  cases r with
  | mk ok status body =>
      have h2 : ok = false := h
      have hb2 : body = some Json.null := hb
      subst h2
      subst hb2
      rfl

/-- On an ok response with a parseable body, `handleResponse` returns it. -/
theorem handleResponse_ok_some (r : FetchResponse) (b : Json)
    (h : r.ok = true) (hb : r.body = some b) :
    handleResponse r = Except.ok b := by
  cases r with
  | mk ok status body =>
      have h2 : ok = true := h
      have hb2 : body = some b := hb
      subst h2
      subst hb2
      rfl

/-- On an ok response whose body is not parseable, `handleResponse` rejects
with the `response.json()` failure, not an `ApiError`. -/
theorem handleResponse_ok_none (r : FetchResponse)
    (h : r.ok = true) (hb : r.body = none) :
    handleResponse r = Except.error .jsonRejection := by
  cases r with
  | mk ok status body =>
      have h2 : ok = true := h
      have hb2 : body = none := hb
      subst h2
      subst hb2
      rfl

/-- The full behaviour of `handleResponse` used by claims C2 and C5. -/
theorem handleResponse_spec (r : FetchResponse) :
    (∀ b, r.body = some b → (handleResponse r = Except.ok b ↔ r.ok = true)) ∧
    (r.ok = false → r.body ≠ some Json.null →
      handleResponse r =
        Except.error (.api ⟨r.status, specErrorMessage r.body⟩)) ∧
    (r.ok = false → r.body = some Json.null →
      handleResponse r = Except.error FetchFailure.typeError) ∧
    (r.ok = true → ∀ e, handleResponse r ≠ Except.error (.api e)) := by
  refine ⟨?_, fun h hnn => handleResponse_not_ok r h hnn,
    fun h hb => handleResponse_not_ok_null r h hb, ?_⟩
  · intro b hb
    constructor
    · intro hres
      cases hok : r.ok with
      | true => rfl
      | false =>
          by_cases hnull : r.body = some Json.null
          · rw [handleResponse_not_ok_null r hok hnull] at hres
            exact Except.noConfusion hres
          · rw [handleResponse_not_ok r hok hnull] at hres
            exact Except.noConfusion hres
    · intro hok
      exact handleResponse_ok_some r b hok hb
  · intro hok e
    cases hb : r.body with
    | some b => rw [handleResponse_ok_some r b hok hb]; simp
    | none => rw [handleResponse_ok_none r hok hb]; simp

/-- C2 counterexample: a non-ok response whose body is the valid JSON text
`null` is parsed by `response.json()` (the `.catch` handles only parse
rejections), and then the property access `error.detail` throws a TypeError,
so the operation does not throw the claimed `ApiError` at this input. -/
theorem api_client_error_handling_C2_counterexample :
    nullBodyErrResp.ok = false ∧
    eventsList_handle nullBodyErrResp = Except.error FetchFailure.typeError ∧
    eventsList_handle nullBodyErrResp ≠
      Except.error (FetchFailure.api
        { status := nullBodyErrResp.status,
          message := specErrorMessage nullBodyErrResp.body }) := by
  refine ⟨rfl, rfl, ?_⟩
  intro hcontra
  rw [show eventsList_handle nullBodyErrResp =
      Except.error FetchFailure.typeError from rfl] at hcontra
  simp at hcontra

/-- C2 (amended): every storefront operation routed through `handleResponse`
returns the parsed JSON body exactly when `response.ok` is true; on a non-ok
response whose error body is not JSON `null` it throws an `ApiError` whose
status is the HTTP status and whose message is the `detail` field of the
error body, else its `message` field, else "An error occurred" (also the
message when the error body is not parseable as JSON); on a non-ok response
whose error body is JSON `null`, property access on `null` throws and a
TypeError propagates instead of an `ApiError`. -/
theorem api_client_error_handling_C2 :
    ∀ op ∈ storefrontOps, ∀ r : FetchResponse,
      (∀ b, r.body = some b → (op r = Except.ok b ↔ r.ok = true)) ∧
      (r.ok = false → r.body ≠ some Json.null →
        op r = Except.error (.api ⟨r.status, specErrorMessage r.body⟩)) ∧
      (r.ok = false → r.body = some Json.null →
        op r = Except.error FetchFailure.typeError) ∧
      (r.ok = true → ∀ e, op r ≠ Except.error (.api e)) := by
  intro op hop r
  have hofr : op = handleResponse := by
    simp only [storefrontOps, List.mem_cons, List.not_mem_nil, or_false] at hop
    rcases hop with rfl | rfl | rfl | rfl | rfl | rfl | rfl | rfl | rfl | rfl | rfl <;> rfl
  rw [hofr]
  exact handleResponse_spec r

/-- Witness for C2 (amended): `events.list` handling applied to a concrete
ok response, hypotheses discharged by `rfl` and evaluation. -/
theorem api_client_error_handling_C2_witness :
    eventsList_handle okResp = Except.ok (Json.str "ok") :=
  ((api_client_error_handling_C2 eventsList_handle
      (by unfold storefrontOps; exact List.mem_cons_self _ _) okResp).1
    (Json.str "ok") rfl).mpr rfl

/-- C5: `tickets.purchase` sends a POST to
`${API_BASE}/api/tickets/events/${eventId}/purchase` with a JSON content
type and the serialized purchase request as body, and returns the parsed
body when the response is ok. -/
theorem tickets_purchase_request_C5 :
    ∀ (env : Option String) (eventId : Int) (data : PurchaseRequest),
      (ticketsPurchaseRequest env eventId data).url =
        apiBase env ++ "/api/tickets/events/" ++ toString eventId ++
          "/purchase" ∧
      (ticketsPurchaseRequest env eventId data).method = "POST" ∧
      ("Content-Type", "application/json") ∈
        (ticketsPurchaseRequest env eventId data).headers ∧
      (ticketsPurchaseRequest env eventId data).body =
        some (Json.render (PurchaseRequest.toJson data)) ∧
      ∀ (r : FetchResponse) (b : Json), r.ok = true → r.body = some b →
        ticketsPurchase_handle r = Except.ok b := by
  intro env eventId data
  refine ⟨rfl, rfl, ?_, rfl, ?_⟩
  · exact List.mem_cons_self _ _
  · intro r b hok hb
    exact handleResponse_ok_some r b hok hb

/-- Witness for C5: the response-handling conjunct applied to a concrete ok
response, hypotheses discharged by `rfl`. -/
theorem tickets_purchase_request_C5_witness :
    ticketsPurchase_handle okResp = Except.ok (Json.str "ok") :=
  (tickets_purchase_request_C5 none 1 samplePurchase).2.2.2.2 okResp
    (Json.str "ok") rfl rfl

/-- C6: the URL of `events.list` is `${API_BASE}/api/events` with a query
string holding exactly the provided-and-truthy parameters among `category`,
`limit`, `offset`, in that order with values stringified; with no parameters
the URL is the bare path, containing no "?". -/
theorem events_list_url_C6 :
    ∀ (env : Option String) (p : EventListParams),
      (eventsListUrl env (some p) =
        apiBase env ++ "/api/events" ++
          (if searchParamsToString (eventsListQueryPairs (some p)) = "" then ""
           else "?" ++ searchParamsToString (eventsListQueryPairs (some p)))) ∧
      (∀ k v, (k, v) ∈ eventsListQueryPairs (some p) ↔
        ((k = "category" ∧ ∃ c, p.category = some c ∧ c ≠ "" ∧ v = c) ∨
         (k = "limit" ∧ ∃ n, p.limit = some n ∧ n ≠ 0 ∧ v = toString n) ∨
         (k = "offset" ∧ ∃ n, p.offset = some n ∧ n ≠ 0 ∧ v = toString n))) ∧
      ((eventsListQueryPairs (some p)).map Prod.fst).Sublist
        ["category", "limit", "offset"] ∧
      (p.category = none → p.limit = none → p.offset = none →
        eventsListUrl env (some p) = apiBase env ++ "/api/events") ∧
      eventsListUrl env none = apiBase env ++ "/api/events" ∧
      '?' ∉ (eventsListUrl (some "http://localhost:8000") none).data := by
  intro env p
  obtain ⟨c, l, o⟩ := p
  refine ⟨?_, ?_, ?_, ?_, ?_, by decide⟩
  · unfold eventsListUrl
    by_cases hqs :
        searchParamsToString (eventsListQueryPairs (some ⟨c, l, o⟩)) = "" <;>
      simp [hqs]
  · intro k v
    rcases c with _ | c <;> rcases l with _ | l <;> rcases o with _ | o <;>
      simp only [eventsListQueryPairs, List.mem_append, List.mem_cons,
        List.not_mem_nil] <;>
      (try split_ifs) <;> simp_all [or_assoc]
  · rcases c with _ | c <;> rcases l with _ | l <;> rcases o with _ | o <;>
      simp only [eventsListQueryPairs] <;> (try split_ifs) <;> simp
  · intro hc hl ho
    subst hc; subst hl; subst ho
    show apiBase env ++ "/api/events" ++ "" = apiBase env ++ "/api/events"
    rw [String.append_empty]
  · show apiBase env ++ "/api/events" ++ "" = apiBase env ++ "/api/events"
    rw [String.append_empty]

/-- Witness for C6: the no-parameters conjunct at concrete inputs, the three
absence hypotheses discharged by `rfl`. -/
theorem events_list_url_C6_witness :
    eventsListUrl none (some { category := none, limit := none, offset := none }) =
      apiBase none ++ "/api/events" :=
  (events_list_url_C6 none
      { category := none, limit := none, offset := none }).2.2.2.1 rfl rfl rfl

/-- C7: the modelled MCP server exposes about 125 ticketing operations as
tools, in particular at least 100. -/
theorem mcp_tool_count_C7 : mcpToolCount = 125 ∧ 100 ≤ mcpToolCount := by
  constructor <;> norm_num [mcpToolCount]

end AiTickets
